import Mathlib

/-!
Verification development for the AyonixFR python services.

The file shallowly embeds the original algorithmic logic of
`src/python_service/face_quality.py` (image-quality scoring) and
`src/python_service/face_service.py` (landmark-derived embedding and
landmark confidence) into Lean.

Numeric conventions: the python code computes over floats; the embedding
idealises this as exact rational arithmetic.  The handful of numpy/OpenCV
routines that are genuinely real-valued (`np.linalg.norm`, `np.arccos`,
`np.std` - all square-root or transcendental based) are external library
collaborators; they enter the development as explicit function parameters
(`MathOracles`, `stdFn`), and every theorem below is proved for all values
of those parameters, hence in particular for the true real-valued ones.
All structural logic (band thresholds, index tables, loop bounds,
concatenation order, padding/truncation, clamping) is transcribed directly
from the source.
-/

/-- Round half to even on exact rationals: the idealisation of Python's
`round` builtin used as `round(x, n)` in the source. -/
def roundHalfEven (q : ℚ) : ℤ :=
  if q - ⌊q⌋ < 1/2 then ⌊q⌋
  else if 1/2 < q - ⌊q⌋ then ⌊q⌋ + 1
  else if ⌊q⌋ % 2 = 0 then ⌊q⌋ else ⌊q⌋ + 1

/-- Python `round(x, 2)`. -/
def round2 (q : ℚ) : ℚ := (roundHalfEven (q * 100) : ℚ) / 100

/-- Result dictionary of `assess_sharpness` (face_quality.py, lines 35-39). -/
structure SharpnessResult where
  score : ℚ
  quality : String
  raw_value : ℚ
deriving DecidableEq, Repr

/-- `assess_sharpness` (face_quality.py, lines 18-39): the Laplacian
variance itself is computed by OpenCV from the image; the original banding
logic is a function of that variance. -/
def assess_sharpness (laplacian_var : ℚ) : SharpnessResult :=
  if laplacian_var < 100 then
    { score := round2 (laplacian_var / 100 * 50)
      quality := "poor"
      raw_value := round2 laplacian_var }
  else if laplacian_var < 500 then
    { score := round2 (50 + (laplacian_var - 100) / 400 * 30)
      quality := "acceptable"
      raw_value := round2 laplacian_var }
  else
    { score := round2 (min (80 + (laplacian_var - 500) / 500 * 20) 100)
      quality := "good"
      raw_value := round2 laplacian_var }

/-- Result dictionary of `assess_lighting` (face_quality.py, lines 63-68). -/
structure LightingResult where
  score : ℚ
  quality : String
  brightness : ℚ
  contrast : ℚ
deriving DecidableEq, Repr

/-- `brightness_score` after clamping (face_quality.py, lines 48 and 51). -/
def brightness_score_of (mean_brightness : ℚ) : ℚ :=
  max 0 (min 100 (100 - |mean_brightness - 125| / 125 * 100))

/-- `contrast_score` after clamping (face_quality.py, lines 49 and 52). -/
def contrast_score_of (std_brightness : ℚ) : ℚ :=
  max 0 (min 100 (100 - |std_brightness - 60| / 60 * 100))

/-- The weighted lighting score before rounding (face_quality.py, line 54). -/
def lighting_raw (mean_brightness std_brightness : ℚ) : ℚ :=
  brightness_score_of mean_brightness * 0.6 + contrast_score_of std_brightness * 0.4

/-- `assess_lighting` (face_quality.py, lines 41-68): mean and standard
deviation of the grayscale intensities are computed by numpy from the
image; the original scoring logic is a function of those two statistics. -/
def assess_lighting (mean_brightness std_brightness : ℚ) : LightingResult :=
  { score := round2 (lighting_raw mean_brightness std_brightness)
    quality :=
      if lighting_raw mean_brightness std_brightness < 50 then "poor"
      else if lighting_raw mean_brightness std_brightness < 75 then "acceptable"
      else "good"
    brightness := round2 mean_brightness
    contrast := round2 std_brightness }

/-- An OpenCV detection rectangle `(x, y, w, h)`. -/
structure Rect where
  x : ℕ
  y : ℕ
  w : ℕ
  h : ℕ
deriving DecidableEq, Repr

/-- Result dictionary of `assess_face_angle` (face_quality.py, lines
80-85 and 108-113); the no-face branch carries no `eyes_detected` key,
modelled as `none`. -/
structure AngleResult where
  score : ℚ
  quality : String
  angle_estimate : String
  eyes_detected : Option ℕ
deriving DecidableEq, Repr

/-- Python `max(faces, key=lambda f: f[2] * f[3])` (face_quality.py,
line 88): scans left to right keeping the first rectangle of maximal
area, replacing only on a strictly larger area. -/
def largestFace (f : Rect) (rest : List Rect) : Rect :=
  rest.foldl (fun best g => if best.w * best.h < g.w * g.h then g else best) f

/-- `assess_face_angle` (face_quality.py, lines 70-113): the Haar-cascade
face and eye detectors are external collaborators; the faces they return
and the per-face eye count enter as parameters, the original selection and
scoring policy is transcribed. -/
def assess_face_angle (faces : List Rect) (detectEyes : Rect → ℕ) : AngleResult :=
  match faces with
  | [] =>
    { score := 0, quality := "poor", angle_estimate := "no_face_detected"
      eyes_detected := none }
  | f :: rest =>
    let face := largestFace f rest
    let eyes := detectEyes face
    if 2 ≤ eyes then
      { score := 100, quality := "good", angle_estimate := "frontal"
        eyes_detected := some eyes }
    else if eyes = 1 then
      { score := 60, quality := "acceptable", angle_estimate := "slight_angle"
        eyes_detected := some eyes }
    else
      { score := 30, quality := "poor", angle_estimate := "profile"
        eyes_detected := some eyes }

/-- The per-image statistics consumed by `assess_image_quality`: the
Laplacian variance, the grayscale mean and standard deviation (computed by
OpenCV/numpy from the decoded image) and the face/eye detector outputs. -/
structure ImageStats where
  laplacian_var : ℚ
  mean_brightness : ℚ
  std_brightness : ℚ
  faces : List Rect
  detectEyes : Rect → ℕ

/-- The success dictionary of `assess_image_quality` (face_quality.py,
lines 147-154). -/
structure QualityOk where
  overall_score : ℚ
  overall_quality : String
  recommendation : String
  sharpness : SharpnessResult
  lighting : LightingResult
  angle : AngleResult
deriving DecidableEq, Repr

/-- `assess_image_quality` returns either an error-only dictionary or the
full assessment record; the `err` constructor carries only the error
string, i.e. no `overall_score` key and no sub-scores. -/
inductive QualityResult where
  | err (error : String)
  | ok (body : QualityOk)
deriving DecidableEq, Repr

/-- Recommendation string of the `poor` band (face_quality.py, line 139). -/
def recommendationPoor : String :=
  "Image quality is too low. Please ensure good lighting, hold camera steady, and face the camera directly."

/-- Recommendation string of the `acceptable` band (face_quality.py, line 142). -/
def recommendationAcceptable : String :=
  "Image quality is acceptable but could be improved. Consider better lighting or a more frontal angle."

/-- Recommendation string of the `good` band (face_quality.py, line 145). -/
def recommendationGood : String :=
  "Image quality is good for enrollment."

/-- The weighted overall score before rounding (face_quality.py, lines
130-134); it combines the already-rounded sub-scores. -/
def overall_raw (s : ImageStats) : ℚ :=
  (assess_sharpness s.laplacian_var).score * 0.35 +
  (assess_lighting s.mean_brightness s.std_brightness).score * 0.35 +
  (assess_face_angle s.faces s.detectEyes).score * 0.30

/-- The success branch of `assess_image_quality` (face_quality.py, lines
125-154). -/
def assess_ok (s : ImageStats) : QualityOk :=
  { overall_score := round2 (overall_raw s)
    overall_quality :=
      if overall_raw s < 50 then "poor"
      else if overall_raw s < 75 then "acceptable"
      else "good"
    recommendation :=
      if overall_raw s < 50 then recommendationPoor
      else if overall_raw s < 75 then recommendationAcceptable
      else recommendationGood
    sharpness := assess_sharpness s.laplacian_var
    lighting := assess_lighting s.mean_brightness s.std_brightness
    angle := assess_face_angle s.faces s.detectEyes }

/-- `assess_image_quality` (face_quality.py, lines 115-159): decoding is
done by OpenCV; a failed decode (`image is None`) is the `none` input and
short-circuits to the error-only result. -/
def assess_image_quality (decoded : Option ImageStats) : QualityResult :=
  match decoded with
  | none => QualityResult.err "Failed to decode image"
  | some s => QualityResult.ok (assess_ok s)

/-- A 3D landmark point `(x, y, z)`. -/
abbrev Point3 := ℚ × ℚ × ℚ

/-- A MediaPipe landmark set: exactly 468 points in the fixed anatomical
order, with coordinates still normalised to `[0, 1]` as delivered by the
face-mesh collaborator. -/
abbrev LandmarkSet := Fin 468 → Point3

/-- `[lm.x * width, lm.y * height, lm.z * width]` (face_service.py,
line 177). -/
def scalePoint (width height : ℚ) (p : Point3) : Point3 :=
  (p.1 * width, p.2.1 * height, p.2.2 * width)

/-- `key_indices` (face_service.py, lines 182-197): the fixed key facial
feature index table. -/
def key_indices : List (Fin 468) :=
  [33, 133, 160, 159, 158, 157, 173,
   263, 362, 387, 386, 385, 384, 398,
   1, 2, 98, 327,
   61, 291, 0, 17,
   10, 338, 297, 332, 284, 251, 389, 356, 454, 323, 361, 288,
   70, 63, 105, 66, 107, 336, 296, 334, 293, 300,
   205, 425, 206, 426]

/-- Componentwise difference of two landmark points. -/
def sub3 (p q : Point3) : Point3 := (p.1 - q.1, p.2.1 - q.2.1, p.2.2 - q.2.2)

/-- Dot product of two landmark points viewed as vectors. -/
def dot3 (p q : Point3) : ℚ := p.1 * q.1 + p.2.1 * q.2.1 + p.2.2 * q.2.2

/-- The three real-valued numpy routines used by face_service.py:
`np.linalg.norm` on a 3-vector, `np.arccos`, and `np.std` on a vector.
All are square-root or transcendental based and so have no exact rational
counterpart; the development treats them as external collaborators and
proves every property for all values of these parameters, hence in
particular for the true real-valued functions. -/
structure MathOracles where
  norm3 : Point3 → ℚ
  arccos : ℚ → ℚ
  std : List ℚ → ℚ

/-- The banded pairwise-distance loop (face_service.py, lines 205-209):
`for i in range(len(key_points)): for j in range(i + 1, min(i + 5,
len(key_points))): features.append(norm(key_points[i] - key_points[j]))`.
Python `range(a, b)` is the half-open integer interval, here
`List.range' a (b - a)`. -/
def banded_distances (dist : Point3 → Point3 → ℚ) (pts : List Point3) : List ℚ :=
  (List.range pts.length).flatMap fun i =>
    (List.range' (i + 1) (min (i + 5) pts.length - (i + 1))).map fun j =>
      dist (pts.getD i (0, 0, 0)) (pts.getD j (0, 0, 0))

/-- The banded scheme exactly as the specification words it: for each
selected point `i`, the distances to the next 4 points of the subset,
`j = i+1 .. i+4`, clipped to the subset's end. -/
def banded_distances_spec (dist : Point3 → Point3 → ℚ) (pts : List Point3) : List ℚ :=
  (List.range pts.length).flatMap fun i =>
    (List.range' (i + 1) (min 4 (pts.length - (i + 1)))).map fun j =>
      dist (pts.getD i (0, 0, 0)) (pts.getD j (0, 0, 0))

/-- `key_points = landmarks_array[key_indices]` after pixel scaling
(face_service.py, lines 177 and 200). -/
def key_points (lms : LandmarkSet) (width height : ℚ) : List Point3 :=
  key_indices.map fun i => scalePoint width height (lms i)

/-- The two feature angles (face_service.py, lines 212-226): the
eye-nose-mouth triangle angles via `arccos(dot / (norm * norm + 1e-6))`,
at the fixed anatomical indices 33 (left eye), 263 (right eye),
1 (nose tip) and 13 (mouth center). -/
def embedding_angles (M : MathOracles) (lms : LandmarkSet) (width height : ℚ) : List ℚ :=
  let pt : Fin 468 → Point3 := fun i => scalePoint width height (lms i)
  let vec1 := sub3 (pt 263) (pt 33)
  let vec2 := sub3 (pt 1) (pt 33)
  let vec3 := sub3 (pt 13) (pt 1)
  [M.arccos (dot3 vec1 vec2 / (M.norm3 vec1 * M.norm3 vec2 + 1e-6)),
   M.arccos (dot3 vec2 vec3 / (M.norm3 vec2 * M.norm3 vec3 + 1e-6))]

/-- The facial proportion features (face_service.py, lines 228-233):
face width (contour indices 234 and 454), face height (indices 10 and
152), inter-eye distance, and the width/height quotient with the same
epsilon guard. -/
def embedding_proportions (M : MathOracles) (lms : LandmarkSet) (width height : ℚ) : List ℚ :=
  let pt : Fin 468 → Point3 := fun i => scalePoint width height (lms i)
  let face_width := M.norm3 (sub3 (pt 234) (pt 454))
  let face_height := M.norm3 (sub3 (pt 10) (pt 152))
  let eye_distance := M.norm3 (sub3 (pt 33) (pt 263))
  [face_width, face_height, eye_distance, face_width / (face_height + 1e-6)]

/-- The concatenated feature vector of `_generate_embedding_from_landmarks`
before normalisation (face_service.py, lines 203-233): banded pairwise
distances, then the two angles, then the four proportion scalars. -/
def raw_features (M : MathOracles) (lms : LandmarkSet) (width height : ℚ) : List ℚ :=
  banded_distances (fun p q => M.norm3 (sub3 p q)) (key_points lms width height) ++
    embedding_angles M lms width height ++ embedding_proportions M lms width height

/-- `np.mean` of a rational vector (exact). -/
def qmean (v : List ℚ) : ℚ := v.sum / v.length

/-- The per-sample z-score step (face_service.py, lines 239-240):
`(features - mean(features)) / (std(features) + 1e-6)`, guarded by
`len(features) > 0`. -/
def standardize (M : MathOracles) (v : List ℚ) : List ℚ :=
  if 0 < v.length then v.map fun x => (x - qmean v) / (M.std v + 1e-6)
  else v

/-- The pad/truncate step (face_service.py, lines 243-246): zero-pad up
to 128 entries when shorter, else keep the first 128. -/
def pad_or_truncate (v : List ℚ) : List ℚ :=
  if v.length < 128 then v ++ List.replicate (128 - v.length) 0
  else v.take 128

/-- `_generate_embedding_from_landmarks` (face_service.py, lines
171-248). -/
def generate_embedding_from_landmarks (M : MathOracles) (lms : LandmarkSet)
    (width height : ℚ) : List ℚ :=
  pad_or_truncate (standardize M (raw_features M lms width height))

/-- Python `max` over a list of rationals (0 on the empty list, which the
source never reaches). -/
def listMax : List ℚ → ℚ
  | [] => 0
  | x :: xs => xs.foldl max x

/-- Python `min` over a list of rationals (0 on the empty list, which the
source never reaches). -/
def listMin : List ℚ → ℚ
  | [] => 0
  | x :: xs => xs.foldl min x

/-- The x coordinates of a landmark list (face_service.py, line 262). -/
def xsOf (lms : List Point3) : List ℚ := lms.map fun p => p.1

/-- The y coordinates of a landmark list (face_service.py, line 263). -/
def ysOf (lms : List Point3) : List ℚ := lms.map fun p => p.2.1

/-- The z coordinates of a landmark list (face_service.py, line 290). -/
def zsOf (lms : List Point3) : List ℚ := lms.map fun p => p.2.2

/-- `face_width = max(xs) - min(xs)` (face_service.py, line 265). -/
def faceWidthOf (lms : List Point3) : ℚ := listMax (xsOf lms) - listMin (xsOf lms)

/-- `face_center_x` (face_service.py, line 267). -/
def faceCenterXOf (lms : List Point3) : ℚ := (listMax (xsOf lms) + listMin (xsOf lms)) / 2

/-- `face_center_y` (face_service.py, line 268). -/
def faceCenterYOf (lms : List Point3) : ℚ := (listMax (ysOf lms) + listMin (ysOf lms)) / 2

/-- The bucketed face-size factor (face_service.py, lines 272-280), a
function of `size_ratio = face_width / width`. -/
def size_score_of (r : ℚ) : ℚ :=
  if 0.3 ≤ r ∧ r ≤ 0.7 then 0.4
  else if (0.2 ≤ r ∧ r < 0.3) ∨ (0.7 < r ∧ r ≤ 0.8) then 0.3
  else if (0.15 ≤ r ∧ r < 0.2) ∨ (0.8 < r ∧ r ≤ 0.9) then 0.2
  else 0.1

/-- The centering factor (face_service.py, lines 284-286). -/
def center_score_of (lms : List Point3) (width height : ℚ) : ℚ :=
  max 0 (0.3 -
    (|faceCenterXOf lms - width / 2| / (width / 2) +
     |faceCenterYOf lms - height / 2| / (height / 2)) * 0.15)

/-- The z-spread factor (face_service.py, lines 290-294): `np.std` of the
z values enters through the `stdFn` collaborator parameter. -/
def distribution_score_of (stdFn : List ℚ → ℚ) (lms : List Point3) : ℚ :=
  min 0.3 (stdFn (zsOf lms) / (faceWidthOf lms + 1e-6) * 0.5)

/-- `_calculate_landmark_confidence` (face_service.py, lines 250-300). -/
def calculate_landmark_confidence (stdFn : List ℚ → ℚ) (lms : List Point3)
    (width height : ℚ) : ℚ :=
  match lms with
  | [] => 0
  | _ :: _ =>
    max 0 (min 1
      (size_score_of (faceWidthOf lms / width) +
       center_score_of lms width height +
       distribution_score_of stdFn lms))

/-- A trivial instantiation of the real-valued collaborators, used to
exercise the structural theorems on concrete inputs. -/
def trivOracles : MathOracles :=
  { norm3 := fun _ => 0, arccos := fun q => q, std := fun _ => 0 }

/-- An all-zero landmark set, used as a concrete input. -/
def zeroLandmarks : LandmarkSet := fun _ => (0, 0, 0)

/-- A two-point landmark list spanning half the frame width, used as a
concrete input for the confidence function. -/
def twoLandmarks : List Point3 := [(0, 0, 0), (50, 0, 0)]

/-- Concrete image statistics used as a witness input: a fully black,
flat, faceless frame. -/
def blackStats : ImageStats :=
  { laplacian_var := 0, mean_brightness := 0, std_brightness := 0
    faces := [], detectEyes := fun _ => 0 }

lemma roundHalfEven_bounds {a b : ℤ} {q : ℚ} (ha : (a : ℚ) ≤ q) (hb : q ≤ (b : ℚ)) :
    a ≤ roundHalfEven q ∧ roundHalfEven q ≤ b := by
  have hfa : a ≤ ⌊q⌋ := Int.le_floor.mpr ha
  have hfb : ⌊q⌋ ≤ b := by
    have h1 : (⌊q⌋ : ℚ) ≤ (b : ℚ) := le_trans (Int.floor_le q) hb
    exact_mod_cast h1
  have hsucc : 1/2 ≤ q - ⌊q⌋ → ⌊q⌋ + 1 ≤ b := by
    intro h
    have h2 : (⌊q⌋ : ℚ) + 1/2 ≤ (b : ℚ) := by linarith
    have h3 : (⌊q⌋ : ℚ) < (b : ℚ) := by linarith
    have h4 : ⌊q⌋ < b := by exact_mod_cast h3
    omega
  unfold roundHalfEven
  split_ifs with h1 h2 h3
  · exact ⟨hfa, hfb⟩
  · exact ⟨by omega, hsucc (by linarith)⟩
  · exact ⟨hfa, hfb⟩
  · exact ⟨by omega, hsucc (by linarith)⟩

lemma round2_bounds {x : ℚ} (h0 : 0 ≤ x) (h100 : x ≤ 100) :
    0 ≤ round2 x ∧ round2 x ≤ 100 := by
  have h1 : ((0 : ℤ) : ℚ) ≤ x * 100 := by push_cast; linarith
  have h2 : x * 100 ≤ ((10000 : ℤ) : ℚ) := by push_cast; linarith
  obtain ⟨hl, hr⟩ := roundHalfEven_bounds h1 h2
  have hl2 : (0 : ℚ) ≤ (roundHalfEven (x * 100) : ℚ) := by exact_mod_cast hl
  have hr2 : (roundHalfEven (x * 100) : ℚ) ≤ 10000 := by exact_mod_cast hr
  unfold round2
  constructor
  · positivity
  · rw [div_le_iff₀ (by norm_num)]
    linarith

lemma assess_sharpness_score_bounds (v : ℚ) (hv : 0 ≤ v) :
    0 ≤ (assess_sharpness v).score ∧ (assess_sharpness v).score ≤ 100 := by
  unfold assess_sharpness
  split_ifs with h1 h2
  · exact round2_bounds (by linarith) (by linarith)
  · exact round2_bounds (by linarith) (by linarith)
  · exact round2_bounds (le_min (by linarith) (by norm_num)) (min_le_right _ _)

lemma brightness_score_bounds (m : ℚ) :
    0 ≤ brightness_score_of m ∧ brightness_score_of m ≤ 100 :=
  ⟨le_max_left 0 _, max_le (by norm_num) (min_le_left _ _)⟩

lemma contrast_score_bounds (sd : ℚ) :
    0 ≤ contrast_score_of sd ∧ contrast_score_of sd ≤ 100 :=
  ⟨le_max_left 0 _, max_le (by norm_num) (min_le_left _ _)⟩

lemma lighting_raw_bounds (m sd : ℚ) :
    0 ≤ lighting_raw m sd ∧ lighting_raw m sd ≤ 100 := by
  obtain ⟨hb1, hb2⟩ := brightness_score_bounds m
  obtain ⟨hc1, hc2⟩ := contrast_score_bounds sd
  unfold lighting_raw
  constructor <;> nlinarith

lemma assess_lighting_score_bounds (m sd : ℚ) :
    0 ≤ (assess_lighting m sd).score ∧ (assess_lighting m sd).score ≤ 100 := by
  obtain ⟨h1, h2⟩ := lighting_raw_bounds m sd
  simp only [assess_lighting]
  exact round2_bounds h1 h2

lemma assess_face_angle_score_bounds (faces : List Rect) (detectEyes : Rect → ℕ) :
    0 ≤ (assess_face_angle faces detectEyes).score ∧
      (assess_face_angle faces detectEyes).score ≤ 100 := by
  cases faces with
  | nil => simp [assess_face_angle]
  | cons f rest =>
    simp only [assess_face_angle]
    split_ifs <;> norm_num

lemma largestFace_mem (f : Rect) (rest : List Rect) : largestFace f rest ∈ f :: rest := by
  induction rest generalizing f with
  | nil => simp [largestFace]
  | cons g gs ih =>
    simp only [largestFace, List.foldl_cons] at ih ⊢
    by_cases h : f.w * f.h < g.w * g.h
    · rw [if_pos h]
      exact List.mem_cons_of_mem f (ih g)
    · rw [if_neg h]
      rcases List.mem_cons.mp (ih f) with h1 | h1
      · exact List.mem_cons.mpr (Or.inl h1)
      · exact List.mem_cons.mpr (Or.inr (List.mem_cons.mpr (Or.inr h1)))

lemma largestFace_maximal (f : Rect) (rest : List Rect) :
    ∀ g ∈ f :: rest, g.w * g.h ≤ (largestFace f rest).w * (largestFace f rest).h := by
  induction rest generalizing f with
  | nil =>
    intro g hg
    rcases List.mem_cons.mp hg with h1 | h1
    · subst h1; simp [largestFace]
    · simp at h1
  | cons a as ih =>
    intro g hg
    simp only [largestFace, List.foldl_cons] at ih ⊢
    by_cases h : f.w * f.h < a.w * a.h
    · rw [if_pos h]
      rcases List.mem_cons.mp hg with h1 | h1
      · subst h1
        exact le_trans (le_of_lt h) (ih a a (List.mem_cons_self a as))
      · exact ih a g h1
    · rw [if_neg h]
      rcases List.mem_cons.mp hg with h1 | h1
      · subst h1
        exact ih g g (List.mem_cons_self g as)
      · rcases List.mem_cons.mp h1 with h2 | h2
        · subst h2
          exact le_trans (le_of_not_lt h) (ih f f (List.mem_cons_self f as))
        · exact ih f g (List.mem_cons.mpr (Or.inr h2))

/-- C2: the sharpness sub-score maps the Laplacian variance `v` by three
piecewise-linear bands with strict upper bounds - `v < 100` gives score
`v/100*50` and quality poor, `100 <= v < 500` gives `50 + (v-100)/400*30`
and acceptable, `v >= 500` gives `min(80 + (v-500)/500*20, 100)` and good
(each score rounded to 2 decimals on output) - and variance exactly 100
yields score 50.0 with quality acceptable, not poor. -/
theorem assess_sharpness_bands (v : ℚ) :
    (v < 100 → assess_sharpness v =
      { score := round2 (v / 100 * 50), quality := "poor", raw_value := round2 v }) ∧
    (100 ≤ v → v < 500 → assess_sharpness v =
      { score := round2 (50 + (v - 100) / 400 * 30), quality := "acceptable",
        raw_value := round2 v }) ∧
    (500 ≤ v → assess_sharpness v =
      { score := round2 (min (80 + (v - 500) / 500 * 20) 100), quality := "good",
        raw_value := round2 v }) ∧
    assess_sharpness 100 = { score := 50, quality := "acceptable", raw_value := 100 } := by
  refine ⟨fun h => ?_, fun h1 h2 => ?_, fun h => ?_, ?_⟩
  · unfold assess_sharpness
    rw [if_pos h]
  · unfold assess_sharpness
    rw [if_neg (not_lt.mpr h1), if_pos h2]
  · unfold assess_sharpness
    rw [if_neg (not_lt.mpr (le_trans (by norm_num) h)), if_neg (not_lt.mpr h)]
  · norm_num [assess_sharpness, round2, roundHalfEven]

/-- Witness for C2: the poor band at variance 42. -/
theorem assess_sharpness_bands_witness :
    ((42 : ℚ) < 100) ∧ assess_sharpness 42 =
      { score := round2 (42 / 100 * 50), quality := "poor", raw_value := round2 42 } :=
  ⟨by norm_num, (assess_sharpness_bands 42).1 (by norm_num)⟩

/-- C7: the lighting sub-score equals
`brightness_score*0.6 + contrast_score*0.4` with both factors clamped to
`[0,100]` from the distance to the ideal mean 125 and ideal standard
deviation 60 (rounded to 2 decimals on output), the quality label is poor
below 50, acceptable below 75 and good otherwise, and mean exactly 125
with standard deviation exactly 60 scores 100.0 with quality good. -/
theorem assess_lighting_formula (m sd : ℚ) :
    (assess_lighting m sd).score =
      round2 (max 0 (min 100 (100 - |m - 125| / 125 * 100)) * 0.6 +
              max 0 (min 100 (100 - |sd - 60| / 60 * 100)) * 0.4) ∧
    (lighting_raw m sd < 50 → (assess_lighting m sd).quality = "poor") ∧
    (50 ≤ lighting_raw m sd → lighting_raw m sd < 75 →
      (assess_lighting m sd).quality = "acceptable") ∧
    (75 ≤ lighting_raw m sd → (assess_lighting m sd).quality = "good") ∧
    assess_lighting 125 60 =
      { score := 100, quality := "good", brightness := 125, contrast := 60 } := by
  refine ⟨rfl, fun h => ?_, fun h1 h2 => ?_, fun h => ?_, ?_⟩
  · simp only [assess_lighting]
    rw [if_pos h]
  · simp only [assess_lighting]
    rw [if_neg (not_lt.mpr h1), if_pos h2]
  · simp only [assess_lighting]
    rw [if_neg (not_lt.mpr (le_trans (by norm_num) h)), if_neg (not_lt.mpr h)]
  · norm_num [assess_lighting, lighting_raw, brightness_score_of, contrast_score_of,
      round2, roundHalfEven]

/-- Witness for C7: the poor band at mean 0 and standard deviation 0. -/
theorem assess_lighting_formula_witness :
    lighting_raw 0 0 < 50 ∧ (assess_lighting 0 0).quality = "poor" :=
  ⟨by norm_num [lighting_raw, brightness_score_of, contrast_score_of],
   (assess_lighting_formula 0 0).2.1
     (by norm_num [lighting_raw, brightness_score_of, contrast_score_of])⟩

/-- C6: the angle sub-score policy - no face gives score 0 / poor /
no_face_detected; otherwise the face of maximal bounding-box area
(width * height) is selected, and in it 2 or more eyes give 100 / good /
frontal, exactly 1 eye gives 60 / acceptable / slight_angle, and 0 eyes
give 30 / poor / profile. -/
theorem assess_face_angle_policy (faces : List Rect) (detectEyes : Rect → ℕ) :
    (faces = [] → assess_face_angle faces detectEyes =
      { score := 0, quality := "poor", angle_estimate := "no_face_detected",
        eyes_detected := none }) ∧
    (∀ f rest, faces = f :: rest →
      (largestFace f rest ∈ faces ∧
        ∀ g ∈ faces, g.w * g.h ≤ (largestFace f rest).w * (largestFace f rest).h) ∧
      (2 ≤ detectEyes (largestFace f rest) → assess_face_angle faces detectEyes =
        { score := 100, quality := "good", angle_estimate := "frontal",
          eyes_detected := some (detectEyes (largestFace f rest)) }) ∧
      (detectEyes (largestFace f rest) = 1 → assess_face_angle faces detectEyes =
        { score := 60, quality := "acceptable", angle_estimate := "slight_angle",
          eyes_detected := some (detectEyes (largestFace f rest)) }) ∧
      (detectEyes (largestFace f rest) = 0 → assess_face_angle faces detectEyes =
        { score := 30, quality := "poor", angle_estimate := "profile",
          eyes_detected := some (detectEyes (largestFace f rest)) })) := by
  constructor
  · intro h
    subst h
    rfl
  · intro f rest h
    subst h
    refine ⟨⟨largestFace_mem f rest, largestFace_maximal f rest⟩,
      fun h2 => ?_, fun h1 => ?_, fun h0 => ?_⟩
    · simp only [assess_face_angle]
      rw [if_pos h2]
    · simp only [assess_face_angle]
      rw [if_neg (by omega), if_pos h1]
    · simp only [assess_face_angle]
      rw [if_neg (by omega), if_neg (by omega)]

/-- Witness for C6: two faces, the larger one selected, two eyes found. -/
theorem assess_face_angle_policy_witness :
    ([Rect.mk 0 0 2 2, Rect.mk 0 0 3 3] = Rect.mk 0 0 2 2 :: [Rect.mk 0 0 3 3]) ∧
    (2 ≤ (fun _ => 2 : Rect → ℕ) (largestFace (Rect.mk 0 0 2 2) [Rect.mk 0 0 3 3])) ∧
    assess_face_angle [Rect.mk 0 0 2 2, Rect.mk 0 0 3 3] (fun _ => 2) =
      { score := 100, quality := "good", angle_estimate := "frontal",
        eyes_detected := some 2 } :=
  ⟨rfl, by norm_num,
   (((assess_face_angle_policy [Rect.mk 0 0 2 2, Rect.mk 0 0 3 3] (fun _ => 2)).2
      (Rect.mk 0 0 2 2) [Rect.mk 0 0 3 3] rfl).2.1) (by norm_num)⟩

/-- C1: for a successfully decoded image the overall score equals
`sharpness.score*0.35 + lighting.score*0.35 + angle.score*0.30` rounded
to 2 decimals, and the overall quality is poor when the composite is
below 50, acceptable below 75 and good from 75 on, each band mapped to
its fixed recommendation string. -/
theorem assess_image_quality_composite (s : ImageStats) :
    assess_image_quality (some s) = QualityResult.ok (assess_ok s) ∧
    (assess_ok s).overall_score =
      round2 ((assess_sharpness s.laplacian_var).score * 0.35 +
              (assess_lighting s.mean_brightness s.std_brightness).score * 0.35 +
              (assess_face_angle s.faces s.detectEyes).score * 0.30) ∧
    (overall_raw s < 50 → (assess_ok s).overall_quality = "poor" ∧
      (assess_ok s).recommendation = recommendationPoor) ∧
    (50 ≤ overall_raw s → overall_raw s < 75 →
      (assess_ok s).overall_quality = "acceptable" ∧
      (assess_ok s).recommendation = recommendationAcceptable) ∧
    (75 ≤ overall_raw s → (assess_ok s).overall_quality = "good" ∧
      (assess_ok s).recommendation = recommendationGood) := by
  refine ⟨rfl, rfl, fun h => ?_, fun h1 h2 => ?_, fun h => ?_⟩
  · constructor <;> (simp only [assess_ok]; rw [if_pos h])
  · constructor <;> (simp only [assess_ok]; rw [if_neg (not_lt.mpr h1), if_pos h2])
  · constructor <;>
      (simp only [assess_ok];
       rw [if_neg (not_lt.mpr (le_trans (by norm_num) h)), if_neg (not_lt.mpr h)])

/-- Witness for C1: a black, flat, faceless frame lands in the poor band. -/
theorem assess_image_quality_composite_witness :
    overall_raw blackStats < 50 ∧
    (assess_ok blackStats).overall_quality = "poor" ∧
    (assess_ok blackStats).recommendation = recommendationPoor :=
  ⟨by norm_num [overall_raw, blackStats, assess_sharpness, assess_lighting, lighting_raw,
      brightness_score_of, contrast_score_of, assess_face_angle, round2, roundHalfEven],
   ((assess_image_quality_composite blackStats).2.2.1
     (by norm_num [overall_raw, blackStats, assess_sharpness, assess_lighting, lighting_raw,
        brightness_score_of, contrast_score_of, assess_face_angle, round2, roundHalfEven])).1,
   ((assess_image_quality_composite blackStats).2.2.1
     (by norm_num [overall_raw, blackStats, assess_sharpness, assess_lighting, lighting_raw,
        brightness_score_of, contrast_score_of, assess_face_angle, round2, roundHalfEven])).2⟩

/-- C8: for every decoded image (Laplacian variance is nonnegative by
construction) the sharpness, lighting and angle sub-scores and the
composite overall score all lie in `[0, 100]`. -/
theorem quality_scores_bounded (s : ImageStats) (hv : 0 ≤ s.laplacian_var) :
    (0 ≤ (assess_sharpness s.laplacian_var).score ∧
      (assess_sharpness s.laplacian_var).score ≤ 100) ∧
    (0 ≤ (assess_lighting s.mean_brightness s.std_brightness).score ∧
      (assess_lighting s.mean_brightness s.std_brightness).score ≤ 100) ∧
    (0 ≤ (assess_face_angle s.faces s.detectEyes).score ∧
      (assess_face_angle s.faces s.detectEyes).score ≤ 100) ∧
    (0 ≤ (assess_ok s).overall_score ∧ (assess_ok s).overall_score ≤ 100) := by
  obtain ⟨hs1, hs2⟩ := assess_sharpness_score_bounds s.laplacian_var hv
  obtain ⟨hl1, hl2⟩ := assess_lighting_score_bounds s.mean_brightness s.std_brightness
  obtain ⟨ha1, ha2⟩ := assess_face_angle_score_bounds s.faces s.detectEyes
  have hraw : 0 ≤ overall_raw s ∧ overall_raw s ≤ 100 := by
    unfold overall_raw
    constructor <;> nlinarith
  refine ⟨⟨hs1, hs2⟩, ⟨hl1, hl2⟩, ⟨ha1, ha2⟩, ?_⟩
  simp only [assess_ok]
  exact round2_bounds hraw.1 hraw.2

/-- Witness for C8: the black frame has nonnegative Laplacian variance. -/
theorem quality_scores_bounded_witness :
    0 ≤ blackStats.laplacian_var ∧
    (0 ≤ (assess_sharpness blackStats.laplacian_var).score ∧
      (assess_sharpness blackStats.laplacian_var).score ≤ 100) :=
  ⟨by norm_num [blackStats],
   (quality_scores_bounded blackStats (by norm_num [blackStats])).1⟩

/-- C9: a failed image decode short-circuits to the error-only result,
whose constructor carries nothing but the error string - in particular no
overall score and no sharpness, lighting or angle sub-results. -/
theorem decode_failure_error_only :
    assess_image_quality none = QualityResult.err "Failed to decode image" := rfl

lemma banded_distances_eq_spec (dist : Point3 → Point3 → ℚ) (pts : List Point3) :
    banded_distances dist pts = banded_distances_spec dist pts := by
  unfold banded_distances banded_distances_spec
  congr 1
  funext i
  have h : min (i + 5) pts.length - (i + 1) = min 4 (pts.length - (i + 1)) := by omega
  rw [h]

lemma banded_distances_length (dist : Point3 → Point3 → ℚ) (pts : List Point3) :
    (banded_distances dist pts).length =
      ((List.range pts.length).map fun i => min (i + 5) pts.length - (i + 1)).sum := by
  unfold banded_distances
  rw [List.length_flatMap]
  refine congrArg List.sum (List.map_congr_left fun i _ => ?_)
  simp [List.length_map, List.length_range']

lemma key_points_length (lms : LandmarkSet) (width height : ℚ) :
    (key_points lms width height).length = 48 := by
  simp [key_points, key_indices]

lemma banded_key_length (dist : Point3 → Point3 → ℚ) {pts : List Point3}
    (hp : pts.length = 48) : (banded_distances dist pts).length = 182 := by
  rw [banded_distances_length, hp]
  decide

lemma raw_features_length (M : MathOracles) (lms : LandmarkSet) (width height : ℚ) :
    (raw_features M lms width height).length = 188 := by
  unfold raw_features
  rw [List.length_append, List.length_append,
    banded_key_length _ (key_points_length lms width height)]
  rfl

lemma standardize_length (M : MathOracles) (v : List ℚ) :
    (standardize M v).length = v.length := by
  unfold standardize
  split_ifs with h
  · rw [List.length_map]
  · rfl

lemma pad_or_truncate_length (v : List ℚ) : (pad_or_truncate v).length = 128 := by
  unfold pad_or_truncate
  split_ifs with h
  · rw [List.length_append, List.length_replicate]
    omega
  · rw [List.length_take]
    omega

/-- C3 counterexample: the fixed key-point index table of the embedding
has 48 entries, not 44. -/
theorem key_indices_not_44 : key_indices.length = 48 ∧ key_indices.length ≠ 44 :=
  ⟨rfl, by decide⟩

/-- C3 (amended): the embedding's distance features are built from a
fixed subset of exactly 48 distinct landmark indices (spanning eyes,
nose, mouth, face contour, eyebrows, cheeks), taking for each selected
point `i` the distances to the next 4 points of the subset
(`j = i+1 .. i+4`, clipped to the subset's end), not all pairs. -/
theorem key_indices_banded_features :
    key_indices.length = 48 ∧ key_indices.Nodup ∧
    ∀ (dist : Point3 → Point3 → ℚ) (pts : List Point3),
      banded_distances dist pts = banded_distances_spec dist pts :=
  ⟨rfl, by decide, banded_distances_eq_spec⟩

/-- C4: for every 468-point landmark set the embedding standardizes the
concatenated feature vector by its own mean and standard deviation plus
1e-6, then zero-pads (if shorter than 128) or truncates to the first 128
entries (if longer), so the returned vector has length exactly 128. -/
theorem embedding_length_128 (M : MathOracles) (lms : LandmarkSet) (width height : ℚ) :
    (generate_embedding_from_landmarks M lms width height).length = 128 ∧
    generate_embedding_from_landmarks M lms width height =
      pad_or_truncate (standardize M (raw_features M lms width height)) ∧
    (∀ v : List ℚ, v ≠ [] → standardize M v =
      v.map fun x => (x - v.sum / (v.length : ℚ)) / (M.std v + 1e-6)) ∧
    (∀ v : List ℚ, v.length < 128 →
      pad_or_truncate v = v ++ List.replicate (128 - v.length) 0) ∧
    (∀ v : List ℚ, 128 ≤ v.length → pad_or_truncate v = v.take 128) := by
  refine ⟨pad_or_truncate_length _, rfl, fun v hv => ?_, fun v hv => ?_, fun v hv => ?_⟩
  · unfold standardize qmean
    rw [if_pos (List.length_pos.mpr hv)]
  · unfold pad_or_truncate
    rw [if_pos hv]
  · unfold pad_or_truncate
    rw [if_neg (not_lt.mpr hv)]

/-- Witness for C4: standardization on a concrete two-element vector. -/
theorem embedding_length_128_witness :
    (([1, 2] : List ℚ) ≠ []) ∧
    standardize trivOracles [1, 2] =
      ([1, 2] : List ℚ).map fun x =>
        (x - ([1, 2] : List ℚ).sum / ((([1, 2] : List ℚ).length : ℕ) : ℚ)) /
          (trivOracles.std [1, 2] + 1e-6) :=
  ⟨by simp, (embedding_length_128 trivOracles zeroLandmarks 0 0).2.2.1 [1, 2] (by simp)⟩

/-- C10: for every 468-point landmark set the concatenated feature vector
has exactly 188 entries (182 banded distances over the 48-entry key-point
table, plus 2 angles, plus 4 proportion scalars), which exceeds 128, so
the zero-padding branch is unreachable and the embedding is always the
first 128 entries of the standardized feature vector. -/
theorem embedding_pad_unreachable (M : MathOracles) (lms : LandmarkSet) (width height : ℚ) :
    (banded_distances (fun p q => M.norm3 (sub3 p q)) (key_points lms width height)).length
      = 182 ∧
    (raw_features M lms width height).length = 188 ∧
    pad_or_truncate (standardize M (raw_features M lms width height)) =
      (standardize M (raw_features M lms width height)).take 128 ∧
    generate_embedding_from_landmarks M lms width height =
      (standardize M (raw_features M lms width height)).take 128 := by
  have h2 := raw_features_length M lms width height
  have h3 : (standardize M (raw_features M lms width height)).length = 188 := by
    rw [standardize_length, h2]
  have hc : pad_or_truncate (standardize M (raw_features M lms width height)) =
      (standardize M (raw_features M lms width height)).take 128 := by
    unfold pad_or_truncate
    rw [if_neg (by rw [h3]; norm_num)]
  exact ⟨banded_key_length _ (key_points_length lms width height), h2, hc, hc⟩

/-- C5: the landmark confidence always lies in `[0, 1]`, and on a
nonempty landmark set it is exactly the clamp to `[0, 1]` of the sum of
the bucketed face-size factor (at most 0.4, equal to 0.4 when the face
width is 30-70 percent of the image width), the centering factor (at most
0.3, linearly penalised by the normalised center offsets) and the
z-spread factor `min(0.3, z_std / (face_width + 1e-6) * 0.5)`. -/
theorem landmark_confidence_clamped (stdFn : List ℚ → ℚ) (lms : List Point3)
    (width height : ℚ) :
    (0 ≤ calculate_landmark_confidence stdFn lms width height ∧
      calculate_landmark_confidence stdFn lms width height ≤ 1) ∧
    (lms ≠ [] → calculate_landmark_confidence stdFn lms width height =
      max 0 (min 1 (size_score_of (faceWidthOf lms / width) +
        center_score_of lms width height + distribution_score_of stdFn lms))) ∧
    size_score_of (faceWidthOf lms / width) ≤ 0.4 ∧
    (0.3 ≤ faceWidthOf lms / width → faceWidthOf lms / width ≤ 0.7 →
      size_score_of (faceWidthOf lms / width) = 0.4) ∧
    (0 < width → 0 < height → center_score_of lms width height ≤ 0.3) ∧
    distribution_score_of stdFn lms =
      min 0.3 (stdFn (zsOf lms) / (faceWidthOf lms + 1e-6) * 0.5) ∧
    distribution_score_of stdFn lms ≤ 0.3 := by
  refine ⟨?_, fun hne => ?_, ?_, fun ha hb => ?_, fun hw hh => ?_, rfl, min_le_left _ _⟩
  · cases lms with
    | nil => norm_num [calculate_landmark_confidence]
    | cons p ps =>
      simp only [calculate_landmark_confidence]
      exact ⟨le_max_left 0 _, max_le (by norm_num) (min_le_left _ _)⟩
  · cases lms with
    | nil => exact absurd rfl hne
    | cons p ps => rfl
  · unfold size_score_of
    split_ifs <;> norm_num
  · unfold size_score_of
    rw [if_pos ⟨ha, hb⟩]
  · unfold center_score_of
    have hx : 0 ≤ |faceCenterXOf lms - width / 2| / (width / 2) :=
      div_nonneg (abs_nonneg _) (by linarith)
    have hy : 0 ≤ |faceCenterYOf lms - height / 2| / (height / 2) :=
      div_nonneg (abs_nonneg _) (by linarith)
    exact max_le (by norm_num) (by nlinarith)

/-- Witness for C5: a two-point landmark list half the frame wide,
centered checks discharged at width = height = 100. -/
theorem landmark_confidence_clamped_witness :
    (twoLandmarks ≠ []) ∧
    (0.3 ≤ faceWidthOf twoLandmarks / 100 ∧ faceWidthOf twoLandmarks / 100 ≤ 0.7) ∧
    calculate_landmark_confidence (fun _ => 0) twoLandmarks 100 100 =
      max 0 (min 1 (size_score_of (faceWidthOf twoLandmarks / 100) +
        center_score_of twoLandmarks 100 100 +
        distribution_score_of (fun _ => 0) twoLandmarks)) ∧
    size_score_of (faceWidthOf twoLandmarks / 100) = 0.4 :=
  ⟨by simp [twoLandmarks],
   ⟨by norm_num [twoLandmarks, faceWidthOf, xsOf, listMax, listMin, max_def, min_def],
    by norm_num [twoLandmarks, faceWidthOf, xsOf, listMax, listMin, max_def, min_def]⟩,
   (landmark_confidence_clamped (fun _ => 0) twoLandmarks 100 100).2.1
     (by simp [twoLandmarks]),
   (landmark_confidence_clamped (fun _ => 0) twoLandmarks 100 100).2.2.2.1
     (by norm_num [twoLandmarks, faceWidthOf, xsOf, listMax, listMin, max_def, min_def])
     (by norm_num [twoLandmarks, faceWidthOf, xsOf, listMax, listMin, max_def, min_def])⟩
